import Mathlib

/-
Shallow embedding of the multimodal Parkinson's screening pipeline:
`multimodal_infer.py` (CLI pipeline) and `server.py` (Flask HTTP shell).

Numeric values that the Python code holds in floats are modelled as
rationals (ℚ), following the spec's idealized arithmetic.  External
library calls (cv2.imread, parselmouth, the sklearn scaler/model, the
keras model, pydub transcoding) are opaque collaborators; their
observable outcomes (success/failure, returned numbers) are supplied
through explicit environment records, and Python exceptions are
modelled with `Except`.
-/

namespace PD

/-- A Python exception escaping a repository function. -/
inductive PyErr where
  | fileNotFound (msg : String)
  | valueError (msg : String)
deriving DecidableEq

/-- Embeds the combination arithmetic shared by both shells:
`final = draw_weight * d_prob + voice_weight * v_prob`
(multimodal_infer.py line 111, server.py line 122). -/
def combinedScore (draw_weight voice_weight d_prob v_prob : ℚ) : ℚ :=
  draw_weight * d_prob + voice_weight * v_prob

/-- Embeds the decision label:
`'Parkinson' if final >= 0.5 else 'No Parkinson'`
(multimodal_infer.py line 128, server.py line 124). -/
def predictionLabel (s : ℚ) : String :=
  if 1/2 ≤ s then ("Parkinson") else ("No Parkinson")

/-- Embeds the confidence measure `abs(final - 0.5) * 2`
(multimodal_infer.py line 129, server.py line 123). -/
def confidence (s : ℚ) : ℚ :=
  |s - 1/2| * 2

/-
An age field is `Option (Option ℚ)`: the outer layer records whether the
age argument / form field was supplied at all, the inner layer records
whether `float(age)` succeeded (`none` = it raised) and with what value.
The advisory message interpolates the parsed age, so the attached caution
is modelled by the age value it carries.
-/

/-- Embeds the CLI age-caution rule (multimodal_infer.py lines 114-121):
caution iff the supplied age parses and `a < 18 or a > 80`. -/
def cliCaution (age : Option (Option ℚ)) : Option ℚ :=
  match age with
  | none => none
  | some none => none
  | some (some a) => if a < 18 ∨ 80 < a then some a else none

/-- Embeds the HTTP age-caution rule (server.py lines 126-136):
caution iff the supplied age parses and `a < 11 or a > 75`. -/
def httpCaution (age : Option (Option ℚ)) : Option ℚ :=
  match age with
  | none => none
  | some none => none
  | some (some a) => if a < 11 ∨ 75 < a then some a else none

/-- Embeds the pad/truncate step of `extract_voice_from_wav`
(multimodal_infer.py lines 79-83): truncate `base_feats` to `n` entries
when `n <= len(base_feats)`, otherwise zero-pad on the right. -/
def resizeFeatures (base : List ℚ) (n : ℕ) : List ℚ :=
  if n ≤ base.length then base.take n
  else base ++ List.replicate (n - base.length) 0

/-- Embeds the width selection of `extract_voice_from_wav`
(multimodal_infer.py lines 74-77): `len(feature_names_in_)` when that
attribute exists, else the Python truthy-or chain
`expected_n_features or getattr(voice_scaler, "n_features_in_", len(base_feats))`
(a supplied width of 0 is falsy and falls through, as in Python). -/
def chooseWidth (featureNamesLen : Option ℕ) (expected_n_features : Option ℕ)
    (nFeaturesIn : Option ℕ) (baseLen : ℕ) : ℕ :=
  match featureNamesLen with
  | some k => k
  | none =>
    match expected_n_features with
    | some e => if e = 0 then nFeaturesIn.getD baseLen else e
    | none => nFeaturesIn.getD baseLen

/-- Outcomes of the external acoustic-analysis calls made by
`extract_voice_from_wav` for one audio file: whether `parselmouth.Sound`
succeeds, whether `snd.to_pitch()` succeeds, whether the f0 mean
computation raises or yields NaN, and whether the HNR mean raises. -/
structure VoiceEnv where
  soundOk : Bool
  pitchOk : Bool
  f0Raises : Bool
  f0IsNaN : Bool
  f0Val : ℚ
  hnrRaises : Bool
  hnrVal : ℚ

/-- Embeds `base_feats` (multimodal_infer.py lines 59-71): the f0 slot is
0.0 when its computation raised (the except branch sets `f0 = 0.0`) or when
the nan-mean came out NaN (`f0 if not np.isnan(f0) else 0.0`); the HNR slot
is 0.0 when its computation raised; the third slot is the constant 0.0. -/
def baseFeats (v : VoiceEnv) : List ℚ :=
  [if v.f0Raises || v.f0IsNaN then 0 else v.f0Val,
   if v.hnrRaises then 0 else v.hnrVal,
   0]

/-- The loaded `voice_scaler` as observed by the repository code: the
length of `feature_names_in_` when present, `n_features_in_` when present,
and the behaviour of `transform` on a single row. -/
structure ScalerEnv where
  featureNamesLen : Option ℕ
  nFeaturesIn : Option ℕ
  transform : List ℚ → Except PyErr (List ℚ)

/-- Embeds `extract_voice_from_wav` (multimodal_infer.py lines 54-85).
`parselmouth.Sound(wav_path)` (line 55) and `snd.to_pitch()` (line 57) sit
outside any try/except, so their failures propagate; the f0 and HNR
computations are each wrapped and degrade to 0.0; the base vector is then
resized to the chosen width and returned as a 1×n row. -/
def extract_voice_from_wav (sc : ScalerEnv) (v : VoiceEnv)
    (expected_n_features : Option ℕ) : Except PyErr (List ℚ) :=
  if v.soundOk then
    if v.pitchOk then
      let base := baseFeats v
      Except.ok (resizeFeatures base
        (chooseWidth sc.featureNamesLen expected_n_features sc.nFeaturesIn base.length))
    else Except.error (PyErr.valueError ("to_pitch failed"))
  else Except.error (PyErr.valueError ("could not read audio file"))

/-- Embeds `get_drawing_input` (multimodal_infer.py lines 28-52).  The
model input shape is `some (H, W, C)` when introspection succeeds, else
the 224×224×3 fallback applies.  `readable` reflects whether `cv2.imread`
returns an image for the path; `None` raises
`FileNotFoundError(f"Image not found: {img_path}")`.  On success the
colour conversion, resize, normalization and `expand_dims` steps yield a
batch-of-one tensor, represented here by its shape `[1, H, W, C]`. -/
def get_drawing_input (input_shape : Option (ℕ × ℕ × ℕ))
    (readable : String → Bool) (img_path : String) : Except PyErr (List ℕ) :=
  let hwc := input_shape.getD (224, 224, 3)
  if readable img_path then Except.ok [1, hwc.1, hwc.2.1, hwc.2.2]
  else Except.error (PyErr.fileNotFound (("Image not found: ") ++ img_path))

/-- Embeds the scaling step of the CLI pipeline (multimodal_infer.py
lines 98-104): try `voice_scaler.transform(v_raw)`; on any exception,
retry with `np.zeros((1, n))` where `n` is `n_features_in_` when present,
else the width of `v_raw`. -/
def scaleVoiceCLI (sc : ScalerEnv) (v_raw : List ℚ) : Except PyErr (List ℚ) :=
  match sc.transform v_raw with
  | Except.ok y => Except.ok y
  | Except.error _ => sc.transform (List.replicate (sc.nFeaturesIn.getD v_raw.length) 0)

/-- Embeds the scaling step of the HTTP handler (server.py lines 109-113):
try `voice_scaler.transform(v_raw)`; on any exception, retry with
`[[0.0] * n]` where `n` is `n_features_in_` when present, else the width
of `v_raw`. -/
def scaleVoiceHTTP (sc : ScalerEnv) (v_raw : List ℚ) : Except PyErr (List ℚ) :=
  match sc.transform v_raw with
  | Except.ok y => Except.ok y
  | Except.error _ => sc.transform (List.replicate (sc.nFeaturesIn.getD v_raw.length) 0)

/-- The process-wide collaborators shared by both shells: the drawing
model's declared input shape and probability output, image readability,
the scaler, the acoustic-analysis outcomes, and the voice model. -/
structure Env where
  inputShape : Option (ℕ × ℕ × ℕ)
  readable : String → Bool
  d_prob : ℚ
  scaler : ScalerEnv
  voice : VoiceEnv
  hasPredictProba : Bool
  predictProbaPos : List ℚ → ℚ
  predictOut : List ℚ → ℚ

/-- Embeds the voice-model step (multimodal_infer.py lines 105-108,
server.py lines 115-118): `predict_proba(...)[:,1][0]` when the model has
`predict_proba`, else `predict(...)[0]`. -/
def voiceProb (env : Env) (v_scaled : List ℚ) : ℚ :=
  if env.hasPredictProba then env.predictProbaPos v_scaled else env.predictOut v_scaled

/-- The values `multimodal_predict` prints (multimodal_infer.py
lines 124-131). -/
structure CLIResult where
  d_prob : ℚ
  v_prob : ℚ
  final : ℚ
  decision : String
  conf : ℚ
  caution : Option ℚ
deriving DecidableEq

/-- Embeds `multimodal_predict` (multimodal_infer.py lines 88-131):
drawing input and probability, voice features, scaling with zero-vector
retry, voice probability, weighted combination, decision, confidence and
CLI age caution.  Exceptions from the drawing adapter, the extractor or
the (retried) transform propagate. -/
def multimodal_predict (env : Env) (img_path : String)
    (age : Option (Option ℚ)) (draw_weight voice_weight : ℚ) :
    Except PyErr CLIResult := do
  let _d_in ← get_drawing_input env.inputShape env.readable img_path
  let d_prob := env.d_prob
  let expected := env.scaler.nFeaturesIn
  let v_raw ← extract_voice_from_wav env.scaler env.voice expected
  let v_scaled ← scaleVoiceCLI env.scaler v_raw
  let v_prob := voiceProb env v_scaled
  let final := combinedScore draw_weight voice_weight d_prob v_prob
  Except.ok ⟨d_prob, v_prob, final, predictionLabel final, confidence final, cliCaution age⟩

/-- The temporary files the HTTP handler creates. -/
inductive FileId where
  | spiralTmp
  | rawVoiceTmp
  | wavTmp
deriving DecidableEq

/-- An uploaded voice file, reduced to the lowercased extension the
handler computes from its filename (server.py lines 72-73). -/
structure VoiceFile where
  ext : String
deriving DecidableEq

/-- A `POST /predict` multipart request: the optional age form field
(inner layer: did `float(age)` succeed), whether a `spiral_img` file field
is present, and the optional `voice_wav` file. -/
structure HttpRequest where
  age : Option (Option ℚ)
  spiral_img : Bool
  voice_wav : Option VoiceFile

/-- The HTTP collaborators: the shared globals plus the outcome of the
pydub webm→wav transcode (error payload = the stringified exception). -/
structure ServerEnv extends Env where
  transcode : Except String Unit

/-- A JSON response body: either `{"error": msg}` or the success payload
of server.py lines 151-159. -/
inductive Body where
  | err (msg : String)
  | payload (prediction : String) (combined_score : ℚ) (conf : ℚ)
      (drawing_prob : ℚ) (voice_prob : ℚ) (caution : Option ℚ)
      (extracted_voice_features : List ℚ)
deriving DecidableEq

/-- An HTTP response together with the list of temporary files whose
deletion the handler attempted (`os.remove` in try/except — attempts are
recorded whether or not deletion succeeds). -/
structure HttpResponse where
  status : ℕ
  body : Body
  removed : List FileId
deriving DecidableEq

/-- Embeds the inference tail of the handler (server.py lines 102-159):
drawing input on the spiral temp file, voice extraction, scaling with
zero-row retry, combination with the fixed weights 0.55/0.45, HTTP age
caution, temp-file cleanup and the success payload. -/
def server_inference (env : ServerEnv) (age : Option (Option ℚ))
    (usedWebm : Bool) : Except PyErr HttpResponse := do
  let _d_in ← get_drawing_input env.inputShape env.readable ("spiral_tmp.png")
  let d_prob := env.d_prob
  let expected := env.scaler.nFeaturesIn
  let v_raw ← extract_voice_from_wav env.scaler env.voice expected
  let v_scaled ← scaleVoiceHTTP env.scaler v_raw
  let v_prob := voiceProb env.toEnv v_scaled
  let final := combinedScore (11/20) (9/20) d_prob v_prob
  let removed := [FileId.spiralTmp, FileId.rawVoiceTmp] ++
    (if usedWebm then [FileId.wavTmp] else [])
  Except.ok ⟨200,
    Body.payload (predictionLabel final) final (confidence final) d_prob v_prob
      (httpCaution age) v_raw,
    removed⟩

/-- Embeds the `POST /predict` handler `predict` (server.py lines 50-159):
400 when `spiral_img` is missing; save the spiral temp file; 400 (after
attempting to delete the spiral temp file) when `voice_wav` is missing;
save the raw voice temp file; for a `.webm` extension, transcode — on
failure delete both temp files and return 500 with the stringified
exception; otherwise run the shared inference tail.  Exceptions from that
tail escape the handler (the framework would produce its own 500). -/
def server_predict (env : ServerEnv) (req : HttpRequest) :
    Except PyErr HttpResponse :=
  if req.spiral_img then
    match req.voice_wav with
    | none => Except.ok ⟨400, Body.err ("voice_wav is required"), [FileId.spiralTmp]⟩
    | some vf =>
      if vf.ext = (".webm") then
        match env.transcode with
        | Except.error e =>
          Except.ok ⟨500, Body.err (("Failed to convert webm to wav: ") ++ e),
            [FileId.spiralTmp, FileId.rawVoiceTmp]⟩
        | Except.ok _ => server_inference env req.age true
      else server_inference env req.age false
  else Except.ok ⟨400, Body.err ("spiral_img is required"), []⟩

end PD

namespace PD

/-! Helper lemmas about the pad/truncate step. -/

theorem resizeFeatures_length (base : List ℚ) (n : ℕ) :
    (resizeFeatures base n).length = n := by
  unfold resizeFeatures
  split
  · simp
    omega
  · simp
    omega

theorem resizeFeatures_getD_lt (base : List ℚ) (n i : ℕ)
    (h1 : i < base.length) (h2 : i < n) :
    (resizeFeatures base n).getD i 0 = base.getD i 0 := by
  unfold resizeFeatures
  split
  · simp [List.getD_eq_getElem?_getD, List.getElem?_take_of_lt h2]
  · simp [List.getD_eq_getElem?_getD, List.getElem?_append_left h1]

theorem resizeFeatures_getD_ge (base : List ℚ) (n i : ℕ)
    (h1 : base.length ≤ i) (h2 : i < n) :
    (resizeFeatures base n).getD i 0 = 0 := by
  unfold resizeFeatures
  split
  · exfalso
    omega
  · simp [List.getD_eq_getElem?_getD, List.getElem?_append_right h1,
      List.getElem?_replicate]
    split <;> simp

end PD

namespace PD

/-- Success-path unfolding of the voice extractor: when the sound loads
and pitch analysis succeeds, the result is the resized base vector. -/
theorem extract_voice_ok (sc : ScalerEnv) (v : VoiceEnv)
    (expected : Option ℕ) (hs : v.soundOk = true) (hp : v.pitchOk = true) :
    extract_voice_from_wav sc v expected =
      Except.ok (resizeFeatures (baseFeats v)
        (chooseWidth sc.featureNamesLen expected sc.nFeaturesIn 3)) := by
  unfold extract_voice_from_wav
  rw [if_pos hs, if_pos hp]
  rfl

/-- Sample scaler: no named features, 5 declared input features, identity
transform. -/
def wScaler : ScalerEnv := ⟨none, some 5, fun r => Except.ok r⟩

/-- Sample acoustic outcome: everything succeeds, f0 = 7, HNR = 3. -/
def wVoice : VoiceEnv := ⟨true, true, false, false, 7, false, 3⟩

/-- Acoustic outcome where `parselmouth.Sound` itself fails. -/
def failVoice : VoiceEnv := ⟨false, true, false, false, 0, false, 0⟩

/-- Acoustic outcome where the f0 and HNR computations both raise. -/
def degradedVoice : VoiceEnv := ⟨true, true, true, false, 7, true, 3⟩

/-- C1 (counterexample): the claim quantifies over every pair of weights,
but for weights (2, 0) and probabilities (1, 0) the combined score is 2
and the confidence is 3, outside [0,1], so the claimed confidence bound
fails as stated. -/
theorem combiner_confidence_unbounded_cex :
    ¬ (∀ w1 w2 p1 p2 : ℚ, 0 ≤ p1 → p1 ≤ 1 → 0 ≤ p2 → p2 ≤ 1 →
        confidence (combinedScore w1 w2 p1 p2) ≤ 1) := by
  intro h
  have h2 := h 2 0 1 0 (by norm_num) (by norm_num) (by norm_num) (by norm_num)
  have hc : combinedScore 2 0 1 0 = 2 := by norm_num [combinedScore]
  have h3 : confidence 2 = 3 := by
    unfold confidence
    rw [abs_of_nonneg (by norm_num : (0:ℚ) ≤ 2 - 1/2)]
    norm_num
  rw [hc, h3] at h2
  norm_num at h2

/-- C1 (amended): for probabilities in [0,1], the combiner returns
score = w1·p1 + w2·p2, labels the decision positive ("Parkinson") iff the
score is at least 0.5, and returns confidence = |score − 0.5|·2; the
confidence lies in [0,1] when additionally the weights are nonnegative
and sum to at most 1. -/
theorem combiner_spec (w1 w2 p1 p2 : ℚ)
    (hw1 : 0 ≤ w1) (hw2 : 0 ≤ w2) (hw : w1 + w2 ≤ 1)
    (hp1 : 0 ≤ p1) (hp1' : p1 ≤ 1) (hp2 : 0 ≤ p2) (hp2' : p2 ≤ 1) :
    combinedScore w1 w2 p1 p2 = w1 * p1 + w2 * p2 ∧
    (predictionLabel (combinedScore w1 w2 p1 p2) = ("Parkinson") ↔
      1/2 ≤ combinedScore w1 w2 p1 p2) ∧
    confidence (combinedScore w1 w2 p1 p2) =
      |combinedScore w1 w2 p1 p2 - 1/2| * 2 ∧
    0 ≤ confidence (combinedScore w1 w2 p1 p2) ∧
    confidence (combinedScore w1 w2 p1 p2) ≤ 1 := by
  have hs0 : 0 ≤ combinedScore w1 w2 p1 p2 :=
    add_nonneg (mul_nonneg hw1 hp1) (mul_nonneg hw2 hp2)
  have hs1 : combinedScore w1 w2 p1 p2 ≤ 1 := by
    have a1 : w1 * p1 ≤ w1 := by nlinarith
    have a2 : w2 * p2 ≤ w2 := by nlinarith
    unfold combinedScore at a1 a2 ⊢
    linarith
  refine ⟨rfl, ?_, rfl, ?_, ?_⟩
  · unfold predictionLabel
    split
    · rename_i hle
      exact ⟨fun _ => hle, fun _ => rfl⟩
    · rename_i hlt
      constructor
      · intro hstr
        exact absurd hstr (by decide)
      · intro hle
        exact absurd hle hlt
  · unfold confidence
    positivity
  · unfold confidence
    have habs : |combinedScore w1 w2 p1 p2 - 1/2| ≤ 1/2 := by
      rw [abs_le]
      constructor <;> linarith
    linarith

/-- C1 (witness): the amended combiner law instantiated at weights
(1/2, 1/2) and probabilities (1, 0). -/
theorem combiner_spec_witness :
    combinedScore (1/2) (1/2) 1 0 = (1/2) * 1 + (1/2) * 0 ∧
    (predictionLabel (combinedScore (1/2) (1/2) 1 0) = ("Parkinson") ↔
      1/2 ≤ combinedScore (1/2) (1/2) 1 0) ∧
    confidence (combinedScore (1/2) (1/2) 1 0) =
      |combinedScore (1/2) (1/2) 1 0 - 1/2| * 2 ∧
    0 ≤ confidence (combinedScore (1/2) (1/2) 1 0) ∧
    confidence (combinedScore (1/2) (1/2) 1 0) ≤ 1 :=
  combiner_spec (1/2) (1/2) 1 0 (by norm_num) (by norm_num) (by norm_num)
    (by norm_num) (by norm_num) (by norm_num) (by norm_num)

/-- C2: when the audio loads and pitch analysis succeeds, the extractor
returns a vector of exactly N elements (N the width chosen from the
scaler), whose first min(3, N) elements are the computed base features
and whose remaining elements are all zero. -/
theorem extract_voice_pad_truncate (sc : ScalerEnv) (v : VoiceEnv)
    (expected : Option ℕ) (N : ℕ)
    (hs : v.soundOk = true) (hp : v.pitchOk = true)
    (hN : chooseWidth sc.featureNamesLen expected sc.nFeaturesIn 3 = N) :
    ∃ x, extract_voice_from_wav sc v expected = Except.ok x ∧
      x.length = N ∧
      (∀ i, i < min 3 N → x.getD i 0 = (baseFeats v).getD i 0) ∧
      (∀ i, 3 ≤ i → i < N → x.getD i 0 = 0) := by
  have hlen : (baseFeats v).length = 3 := rfl
  refine ⟨resizeFeatures (baseFeats v) N, ?_, ?_, ?_, ?_⟩
  · rw [extract_voice_ok sc v expected hs hp, hN]
  · exact resizeFeatures_length (baseFeats v) N
  · intro i hi
    refine resizeFeatures_getD_lt (baseFeats v) N i ?_ ?_
    · rw [hlen]
      omega
    · omega
  · intro i h3 hN2
    refine resizeFeatures_getD_ge (baseFeats v) N i ?_ hN2
    rw [hlen]
    omega

/-- C2 (witness): the pad/truncate law instantiated on a scaler declaring
5 features and a fully successful acoustic analysis. -/
theorem extract_voice_pad_truncate_witness :
    ∃ x, extract_voice_from_wav wScaler wVoice (some 5) = Except.ok x ∧
      x.length = 5 ∧
      (∀ i, i < min 3 5 → x.getD i 0 = (baseFeats wVoice).getD i 0) ∧
      (∀ i, 3 ≤ i → i < 5 → x.getD i 0 = 0) :=
  extract_voice_pad_truncate wScaler wVoice (some 5) 5 rfl rfl rfl

/-- C3: for a parsed age of 15, the CLI caution rule (bounds 18/80)
attaches a caution while the HTTP caution rule (bounds 11/75) attaches
none — the two shells diverge on the same input. -/
theorem age_caution_threshold_divergence :
    (cliCaution (some (some 15))).isSome = true ∧
    (httpCaution (some (some 15))).isSome = false := by
  constructor <;> decide

/-- C4 (counterexample): an audio path on which `parselmouth.Sound`
fails makes the extractor propagate the exception instead of degrading
to zero-valued features, refuting the claim that no internal failure
ever propagates. -/
theorem extract_voice_error_propagates_cex :
    extract_voice_from_wav wScaler failVoice none =
      Except.error (PyErr.valueError ("could not read audio file")) := rfl

/-- C4 (amended): once the audio loads and pitch analysis succeeds, the
extractor always returns a feature vector, and failures inside the f0 or
HNR computations are replaced by zero-valued features; failures of sound
loading or pitch-object construction, by contrast, propagate. -/
theorem extract_voice_degrades_internal_failures (sc : ScalerEnv)
    (v : VoiceEnv) (expected : Option ℕ)
    (hs : v.soundOk = true) (hp : v.pitchOk = true) :
    extract_voice_from_wav sc v expected =
      Except.ok (resizeFeatures (baseFeats v)
        (chooseWidth sc.featureNamesLen expected sc.nFeaturesIn 3)) ∧
    (v.f0Raises = true → (baseFeats v).getD 0 0 = 0) ∧
    (v.hnrRaises = true → (baseFeats v).getD 1 0 = 0) := by
  refine ⟨extract_voice_ok sc v expected hs hp, ?_, ?_⟩
  · intro h
    simp [baseFeats, h]
  · intro h
    simp [baseFeats, h]

/-- C4 (witness): the amended degradation law instantiated on an
environment where both the f0 and the HNR computations raise. -/
theorem extract_voice_degrades_internal_failures_witness :
    extract_voice_from_wav wScaler degradedVoice none =
      Except.ok (resizeFeatures (baseFeats degradedVoice)
        (chooseWidth wScaler.featureNamesLen none wScaler.nFeaturesIn 3)) ∧
    (degradedVoice.f0Raises = true → (baseFeats degradedVoice).getD 0 0 = 0) ∧
    (degradedVoice.hnrRaises = true → (baseFeats degradedVoice).getD 1 0 = 0) :=
  extract_voice_degrades_internal_failures wScaler degradedVoice none rfl rfl

/-- C8: with drawing probability 0.8, voice probability 0.2 and the
default weights 0.55/0.45, the combined score is 0.53, the decision is
positive ("Parkinson") and the confidence is 0.06. -/
theorem default_weights_scenario :
    combinedScore 0.55 0.45 0.8 0.2 = 0.53 ∧
    predictionLabel (combinedScore 0.55 0.45 0.8 0.2) = ("Parkinson") ∧
    confidence (combinedScore 0.55 0.45 0.8 0.2) = 0.06 := by
  have hs : combinedScore 0.55 0.45 0.8 0.2 = 0.53 := by
    norm_num [combinedScore]
  refine ⟨hs, ?_, ?_⟩
  · rw [hs]
    unfold predictionLabel
    rw [if_pos (by norm_num)]
  · rw [hs]
    unfold confidence
    rw [abs_of_nonneg (by norm_num)]
    norm_num

end PD

namespace PD

/-- Sample shared globals: successful image reads, drawing probability
4/5, the sample scaler and a fully successful acoustic analysis. -/
def sampleEnv : Env :=
  ⟨some (128, 128, 3), fun _ => true, 4/5, wScaler, wVoice, true,
    fun _ => 1/5, fun _ => 0⟩

/-- Sample HTTP collaborators with a succeeding transcode. -/
def sampleServerEnv : ServerEnv := ⟨sampleEnv, Except.ok ()⟩

/-- Sample HTTP collaborators whose webm→wav transcode raises. -/
def failTranscodeEnv : ServerEnv := ⟨sampleEnv, Except.error ("decode failed")⟩

/-- A request with no spiral_img file field. -/
def reqNoSpiral : HttpRequest := ⟨none, false, none⟩

/-- A request with a spiral_img field but no voice_wav field. -/
def reqNoVoice : HttpRequest := ⟨some (some 15), true, none⟩

/-- A request with both files, the voice file carrying a .webm name. -/
def reqWebm : HttpRequest := ⟨none, true, some ⟨(".webm")⟩⟩

/-- C5: a POST /predict request without a spiral_img file field gets
status 400 with body error "spiral_img is required" (and no temp-file
deletion is attempted, since none was created yet). -/
theorem missing_spiral_img_400 (env : ServerEnv) (req : HttpRequest)
    (h : req.spiral_img = false) :
    server_predict env req =
      Except.ok ⟨400, Body.err ("spiral_img is required"), []⟩ := by
  unfold server_predict
  rw [h]
  rfl

/-- C5 (witness): the 400 response on a concrete spiral-less request. -/
theorem missing_spiral_img_400_witness :
    server_predict sampleServerEnv reqNoSpiral =
      Except.ok ⟨400, Body.err ("spiral_img is required"), []⟩ :=
  missing_spiral_img_400 sampleServerEnv reqNoSpiral rfl

/-- C6: a POST /predict request whose voice file has a .webm extension
and whose transcode raises gets a normal (no escaping exception) return
of status 500 whose error body extends the stringified failure reason,
after deletion attempts on both temp files created so far. -/
theorem webm_transcode_failure_500 (env : ServerEnv) (req : HttpRequest)
    (vf : VoiceFile) (e : String)
    (hs : req.spiral_img = true) (hv : req.voice_wav = some vf)
    (he : vf.ext = (".webm")) (ht : env.transcode = Except.error e) :
    server_predict env req =
      Except.ok ⟨500, Body.err (("Failed to convert webm to wav: ") ++ e),
        [FileId.spiralTmp, FileId.rawVoiceTmp]⟩ := by
  simp [server_predict, hs, hv, he, ht]

/-- C6 (witness): the 500 response for a concrete failing transcode. -/
theorem webm_transcode_failure_500_witness :
    server_predict failTranscodeEnv reqWebm =
      Except.ok ⟨500,
        Body.err (("Failed to convert webm to wav: ") ++ ("decode failed")),
        [FileId.spiralTmp, FileId.rawVoiceTmp]⟩ :=
  webm_transcode_failure_500 failTranscodeEnv reqWebm ⟨(".webm")⟩
    ("decode failed") rfl rfl rfl rfl

/-- C7: when the scaler transform raises on the extracted vector, both
the CLI scaling step and the HTTP scaling step retry the transform with
an all-zero vector of the scaler's declared width instead of failing. -/
theorem scaler_retry_zero_vector (sc : ScalerEnv) (v_raw : List ℚ)
    (n : ℕ) (err : PyErr)
    (hn : sc.nFeaturesIn = some n)
    (hf : sc.transform v_raw = Except.error err) :
    scaleVoiceCLI sc v_raw = sc.transform (List.replicate n 0) ∧
    scaleVoiceHTTP sc v_raw = sc.transform (List.replicate n 0) := by
  unfold scaleVoiceCLI scaleVoiceHTTP
  rw [hf, hn]
  exact ⟨rfl, rfl⟩

/-- Sample scaler that rejects any row not of width 4. -/
def retryScaler : ScalerEnv :=
  ⟨some 4, some 4, fun r =>
    if r.length = 4 then Except.ok r
    else Except.error (PyErr.valueError ("shape mismatch"))⟩

/-- C7 (witness): the zero-vector retry on a concrete mismatching row. -/
theorem scaler_retry_zero_vector_witness :
    scaleVoiceCLI retryScaler [1, 2] = retryScaler.transform (List.replicate 4 0) ∧
    scaleVoiceHTTP retryScaler [1, 2] = retryScaler.transform (List.replicate 4 0) :=
  scaler_retry_zero_vector retryScaler [1, 2] 4
    (PyErr.valueError ("shape mismatch")) rfl rfl

/-- C9: the drawing adapter fails with the file-not-found condition (and
no other error) exactly when the image cannot be read, and returns a
tensor without raising on every readable image. -/
theorem drawing_adapter_error_behaviour (shape : Option (ℕ × ℕ × ℕ))
    (readable : String → Bool) (p : String) :
    (readable p = false →
      get_drawing_input shape readable p =
        Except.error (PyErr.fileNotFound (("Image not found: ") ++ p))) ∧
    (readable p = true →
      ∃ t, get_drawing_input shape readable p = Except.ok t) := by
  constructor
  · intro h
    unfold get_drawing_input
    rw [h]
    rfl
  · intro h
    refine ⟨[1, (shape.getD (224, 224, 3)).1, (shape.getD (224, 224, 3)).2.1,
      (shape.getD (224, 224, 3)).2.2], ?_⟩
    unfold get_drawing_input
    rw [h]
    rfl

/-- C9 (witness): the adapter on a concrete unreadable path and on a
concrete readable one. -/
theorem drawing_adapter_error_behaviour_witness :
    get_drawing_input none (fun _ => false) ("missing.png") =
      Except.error (PyErr.fileNotFound (("Image not found: ") ++ ("missing.png"))) ∧
    (∃ t, get_drawing_input none (fun _ => true) ("ok.png") = Except.ok t) :=
  ⟨(drawing_adapter_error_behaviour none (fun _ => false) ("missing.png")).1 rfl,
   (drawing_adapter_error_behaviour none (fun _ => true) ("ok.png")).2 rfl⟩

/-- C10: a POST /predict request with a spiral_img field but no
voice_wav field gets status 400 with body error "voice_wav is required",
and the handler attempts to delete the already-created spiral image temp
file before returning. -/
theorem missing_voice_wav_cleanup (env : ServerEnv) (req : HttpRequest)
    (hs : req.spiral_img = true) (hv : req.voice_wav = none) :
    ∃ resp, server_predict env req = Except.ok resp ∧
      resp.status = 400 ∧
      resp.body = Body.err ("voice_wav is required") ∧
      FileId.spiralTmp ∈ resp.removed := by
  refine ⟨⟨400, Body.err ("voice_wav is required"), [FileId.spiralTmp]⟩,
    ?_, rfl, rfl, by simp⟩
  unfold server_predict
  rw [hs, hv]
  rfl

/-- C10 (witness): the cleanup-then-400 behaviour on a concrete request
carrying only the spiral image. -/
theorem missing_voice_wav_cleanup_witness :
    ∃ resp, server_predict sampleServerEnv reqNoVoice = Except.ok resp ∧
      resp.status = 400 ∧
      resp.body = Body.err ("voice_wav is required") ∧
      FileId.spiralTmp ∈ resp.removed :=
  missing_voice_wav_cleanup sampleServerEnv reqNoVoice rfl rfl

end PD
